import Mathlib

/-!
Verification development for `src/mutex.h` of janus-gateway: a locking facade
(mutexes, conditions, read/write locks) over two primitive backends selected at
build time (`USE_PTHREAD_MUTEX` → pthread primitives, otherwise GLib
primitives), with an optional per-operation debug trace line controlled by the
global `lock_debug` flag.

The embedding models each preprocessor macro as a Lean definition of the same
name (namespaced by backend branch).  A macro expansion is modelled as the list
of observable events it performs in order: trace-line emissions
(`JANUS_PRINT("[%s:%s:%d:<tag>] %p\n", __FILE__, __FUNCTION__, __LINE__, a)`)
and calls to backend primitives.  A macro whose expansion contains its own name
is, by C macro "blue paint", left unexpanded there, producing a reference to an
undefined symbol; such a call is modelled by `Call.undef`.
-/

namespace JanusMutex

/-- Invocation context of a macro: the `__FILE__`, `__FUNCTION__` and
`__LINE__` values at the expansion site. -/
structure Ctx where
  file : String
  func : String
  line : Nat
deriving DecidableEq, Repr

/-- One debug trace line, as printed by
`JANUS_PRINT("[%s:%s:%d:<tag>] %p\n", __FILE__, __FUNCTION__, __LINE__, a)`:
the context fields, the operation tag literal and the handle address. -/
structure TraceLine where
  file : String
  func : String
  line : Nat
  tag : String
  handle : Nat
deriving DecidableEq, Repr

/-- Rendering of the handle address, as `%p` prints it: a token determined by
the address alone. -/
def ptrTok (a : Nat) : String := String.mk (Nat.toDigits 16 a)

/-- Rendering of a trace line in the literal shape
`[<file>:<function>:<line>:<operation>] <handle-identity>`. -/
def TraceLine.render (t : TraceLine) : String :=
  "[" ++ t.file ++ ":" ++ t.func ++ ":" ++ toString t.line ++ ":" ++ t.tag
    ++ "] " ++ ptrTok t.handle

/-- The backend primitives the macros expand to (pthread family and GLib
family). -/
inductive Prim
  | pthread_mutex_init
  | pthread_mutex_destroy
  | pthread_mutex_lock
  | pthread_mutex_trylock
  | pthread_mutex_unlock
  | pthread_cond_init
  | pthread_cond_destroy
  | pthread_cond_wait
  | pthread_cond_timedwait
  | pthread_cond_signal
  | pthread_cond_broadcast
  | g_mutex_init
  | g_mutex_clear
  | g_mutex_lock
  | g_mutex_trylock
  | g_mutex_unlock
  | g_cond_init
  | g_cond_clear
  | g_cond_wait
  | g_cond_wait_until
  | g_cond_signal
  | g_cond_broadcast
  | g_rw_lock_init
  | g_rw_lock_clear
  | g_rw_lock_reader_lock
  | g_rw_lock_reader_trylock
  | g_rw_lock_reader_unlock
  | g_rw_lock_writer_lock
  | g_rw_lock_writer_trylock
  | g_rw_lock_writer_unlock
deriving DecidableEq, Repr

/-- A call site in a macro expansion: either a defined backend primitive, or a
reference to an identifier that the preprocessor left unexpanded (a macro's
self-reference, painted blue), i.e. an undefined symbol. -/
inductive Call
  | prim (p : Prim)
  | undef (name : String)
deriving DecidableEq, Repr

/-- An observable event of a macro expansion, in program order. -/
inductive Event
  | trace (t : TraceLine)
  | call (c : Call)
deriving DecidableEq, Repr

/-- The trace lines among a list of events, in order. -/
def traces : List Event → List TraceLine
  | [] => []
  | Event.trace t :: es => t :: traces es
  | Event.call _ :: es => traces es

/-- The calls among a list of events, in order. -/
def callsOf : List Event → List Call
  | [] => []
  | Event.trace _ :: es => callsOf es
  | Event.call c :: es => c :: callsOf es

/-! ## The `USE_PTHREAD_MUTEX` branch (lines 20–70 of `mutex.h`)

This branch defines the mutex and condition macros only; it defines no
`janus_rwlock` macro at all. -/

namespace Pthread

/-- `janus_mutex_init(a)` ≡ `pthread_mutex_init(a,NULL)` -/
def janus_mutex_init (_a : Nat) : List Event :=
  [Event.call (Call.prim Prim.pthread_mutex_init)]

/-- `janus_mutex_destroy(a)` ≡ `pthread_mutex_destroy(a)` -/
def janus_mutex_destroy (_a : Nat) : List Event :=
  [Event.call (Call.prim Prim.pthread_mutex_destroy)]

/-- `janus_mutex_lock_nodebug(a)` ≡ `pthread_mutex_lock(a)` -/
def janus_mutex_lock_nodebug (_a : Nat) : List Event :=
  [Event.call (Call.prim Prim.pthread_mutex_lock)]

/-- `janus_mutex_lock_debug(a)`: prints the `lock` trace line, then
`pthread_mutex_lock(a)`. -/
def janus_mutex_lock_debug (ctx : Ctx) (a : Nat) : List Event :=
  [Event.trace ⟨ctx.file, ctx.func, ctx.line, "lock", a⟩,
   Event.call (Call.prim Prim.pthread_mutex_lock)]

/-- `janus_mutex_lock(a)` ≡
`{ if(!lock_debug) { janus_mutex_lock_nodebug(a); } else { janus_mutex_lock_debug(a); } }` -/
def janus_mutex_lock (lock_debug : Int) (ctx : Ctx) (a : Nat) : List Event :=
  if lock_debug = 0 then janus_mutex_lock_nodebug a else janus_mutex_lock_debug ctx a

/-- `janus_mutex_trylock_nodebug(a)` ≡ `{ ret = !pthread_mutex_trylock(a); }` -/
def janus_mutex_trylock_nodebug (_a : Nat) : List Event :=
  [Event.call (Call.prim Prim.pthread_mutex_trylock)]

/-- `janus_mutex_trylock_debug(a)`: prints the `trylock` trace line, then
`ret = !pthread_mutex_trylock(a)`. -/
def janus_mutex_trylock_debug (ctx : Ctx) (a : Nat) : List Event :=
  [Event.trace ⟨ctx.file, ctx.func, ctx.line, "trylock", a⟩,
   Event.call (Call.prim Prim.pthread_mutex_trylock)]

/-- `janus_mutex_trylock(a)` ≡
`({ int ret; if(!lock_debug) { janus_mutex_trylock_nodebug(a); } else { janus_mutex_trylock_debug(a); } ret; })` -/
def janus_mutex_trylock (lock_debug : Int) (ctx : Ctx) (a : Nat) : List Event :=
  if lock_debug = 0 then janus_mutex_trylock_nodebug a else janus_mutex_trylock_debug ctx a

/-- `janus_mutex_unlock_nodebug(a)` ≡ `pthread_mutex_unlock(a)` -/
def janus_mutex_unlock_nodebug (_a : Nat) : List Event :=
  [Event.call (Call.prim Prim.pthread_mutex_unlock)]

/-- `janus_mutex_unlock_debug(a)`: prints the `unlock` trace line, then
`pthread_mutex_unlock(a)`. -/
def janus_mutex_unlock_debug (ctx : Ctx) (a : Nat) : List Event :=
  [Event.trace ⟨ctx.file, ctx.func, ctx.line, "unlock", a⟩,
   Event.call (Call.prim Prim.pthread_mutex_unlock)]

/-- `janus_mutex_unlock(a)` ≡
`{ if(!lock_debug) { janus_mutex_unlock_nodebug(a); } else { janus_mutex_unlock_debug(a); } }` -/
def janus_mutex_unlock (lock_debug : Int) (ctx : Ctx) (a : Nat) : List Event :=
  if lock_debug = 0 then janus_mutex_unlock_nodebug a else janus_mutex_unlock_debug ctx a

/-- `janus_condition_init(a)` ≡ `pthread_cond_init(a,NULL)` -/
def janus_condition_init (_a : Nat) : List Event :=
  [Event.call (Call.prim Prim.pthread_cond_init)]

/-- `janus_condition_destroy(a)` ≡ `pthread_cond_destroy(a)` -/
def janus_condition_destroy (_a : Nat) : List Event :=
  [Event.call (Call.prim Prim.pthread_cond_destroy)]

/-- `janus_condition_wait(a, b)` ≡ `pthread_cond_wait(a, b);` -/
def janus_condition_wait (_a : Nat) : List Event :=
  [Event.call (Call.prim Prim.pthread_cond_wait)]

/-- `janus_condition_wait_until(a, b, c)`: builds the `jct` timespec from the
microsecond deadline `c` and calls `pthread_cond_timedwait(a, b, &jct)`.  The
unit conversion of `c` is modelled by `janus_condition_wait_until_jct`
below; here only the emitted events. -/
def janus_condition_wait_until (_a : Nat) : List Event :=
  [Event.call (Call.prim Prim.pthread_cond_timedwait)]

/-- `janus_condition_signal(a)` ≡ `pthread_cond_signal(a);` -/
def janus_condition_signal (_a : Nat) : List Event :=
  [Event.call (Call.prim Prim.pthread_cond_signal)]

/-- `janus_condition_broadcast(a)` ≡ `pthread_cond_broadcast(a);` -/
def janus_condition_broadcast (_a : Nat) : List Event :=
  [Event.call (Call.prim Prim.pthread_cond_broadcast)]

end Pthread

/-! ## The GLib (default, `#else`) branch (lines 72–167 of `mutex.h`)

This branch defines the mutex and condition macros over GLib primitives, and in
addition the whole `janus_rwlock` macro family. -/

namespace Glib

/-- `janus_mutex_init(a)` ≡ `g_mutex_init(a)` -/
def janus_mutex_init (_a : Nat) : List Event :=
  [Event.call (Call.prim Prim.g_mutex_init)]

/-- `janus_mutex_destroy(a)` ≡ `g_mutex_clear(a)` -/
def janus_mutex_destroy (_a : Nat) : List Event :=
  [Event.call (Call.prim Prim.g_mutex_clear)]

/-- `janus_mutex_lock_nodebug(a)` ≡ `g_mutex_lock(a)` -/
def janus_mutex_lock_nodebug (_a : Nat) : List Event :=
  [Event.call (Call.prim Prim.g_mutex_lock)]

/-- `janus_mutex_lock_debug(a)`: prints the `lock` trace line, then
`g_mutex_lock(a)`. -/
def janus_mutex_lock_debug (ctx : Ctx) (a : Nat) : List Event :=
  [Event.trace ⟨ctx.file, ctx.func, ctx.line, "lock", a⟩,
   Event.call (Call.prim Prim.g_mutex_lock)]

/-- `janus_mutex_lock(a)` ≡
`{ if(!lock_debug) { janus_mutex_lock_nodebug(a); } else { janus_mutex_lock_debug(a); } }` -/
def janus_mutex_lock (lock_debug : Int) (ctx : Ctx) (a : Nat) : List Event :=
  if lock_debug = 0 then janus_mutex_lock_nodebug a else janus_mutex_lock_debug ctx a

/-- `janus_mutex_trylock_nodebug(a)` ≡ `{ ret = g_mutex_trylock(a); }` -/
def janus_mutex_trylock_nodebug (_a : Nat) : List Event :=
  [Event.call (Call.prim Prim.g_mutex_trylock)]

/-- `janus_mutex_trylock_debug(a)`: prints the `trylock` trace line, then
`ret = g_mutex_trylock(a)`. -/
def janus_mutex_trylock_debug (ctx : Ctx) (a : Nat) : List Event :=
  [Event.trace ⟨ctx.file, ctx.func, ctx.line, "trylock", a⟩,
   Event.call (Call.prim Prim.g_mutex_trylock)]

/-- `janus_mutex_trylock(a)` ≡
`({ gboolean ret; if(!lock_debug) { janus_mutex_trylock_nodebug(a); } else { janus_mutex_trylock_debug(a); } ret; })` -/
def janus_mutex_trylock (lock_debug : Int) (ctx : Ctx) (a : Nat) : List Event :=
  if lock_debug = 0 then janus_mutex_trylock_nodebug a else janus_mutex_trylock_debug ctx a

/-- `janus_mutex_unlock_nodebug(a)` ≡ `g_mutex_unlock(a)` -/
def janus_mutex_unlock_nodebug (_a : Nat) : List Event :=
  [Event.call (Call.prim Prim.g_mutex_unlock)]

/-- `janus_mutex_unlock_debug(a)`: prints the `unlock` trace line, then
`g_mutex_unlock(a)`. -/
def janus_mutex_unlock_debug (ctx : Ctx) (a : Nat) : List Event :=
  [Event.trace ⟨ctx.file, ctx.func, ctx.line, "unlock", a⟩,
   Event.call (Call.prim Prim.g_mutex_unlock)]

/-- `janus_mutex_unlock(a)` ≡
`{ if(!lock_debug) { janus_mutex_unlock_nodebug(a); } else { janus_mutex_unlock_debug(a); } }` -/
def janus_mutex_unlock (lock_debug : Int) (ctx : Ctx) (a : Nat) : List Event :=
  if lock_debug = 0 then janus_mutex_unlock_nodebug a else janus_mutex_unlock_debug ctx a

/-- `janus_condition_init(a)` ≡ `g_cond_init(a)` -/
def janus_condition_init (_a : Nat) : List Event :=
  [Event.call (Call.prim Prim.g_cond_init)]

/-- `janus_condition_destroy(a)` ≡ `g_cond_clear(a)` -/
def janus_condition_destroy (_a : Nat) : List Event :=
  [Event.call (Call.prim Prim.g_cond_clear)]

/-- `janus_condition_wait(a, b)` ≡ `g_cond_wait(a, b);` -/
def janus_condition_wait (_a : Nat) : List Event :=
  [Event.call (Call.prim Prim.g_cond_wait)]

/-- `janus_condition_wait_until(a, b, c)` ≡ `g_cond_wait_until(a, b, c);` (the
deadline `c` is passed through unchanged). -/
def janus_condition_wait_until (_a : Nat) : List Event :=
  [Event.call (Call.prim Prim.g_cond_wait_until)]

/-- `janus_condition_signal(a)` ≡ `g_cond_signal(a);` -/
def janus_condition_signal (_a : Nat) : List Event :=
  [Event.call (Call.prim Prim.g_cond_signal)]

/-- `janus_condition_broadcast(a)` ≡ `g_cond_broadcast(a);` -/
def janus_condition_broadcast (_a : Nat) : List Event :=
  [Event.call (Call.prim Prim.g_cond_broadcast)]

/-- `janus_rwlock_init_nodebug(a)` ≡ `g_rw_lock_init(a)` -/
def janus_rwlock_init_nodebug (_a : Nat) : List Event :=
  [Event.call (Call.prim Prim.g_rw_lock_init)]

/-- `janus_rwlock_init_debug(a)`: prints the `rw_init` trace line, then
`g_rw_lock_init(a)`. -/
def janus_rwlock_init_debug (ctx : Ctx) (a : Nat) : List Event :=
  [Event.trace ⟨ctx.file, ctx.func, ctx.line, "rw_init", a⟩,
   Event.call (Call.prim Prim.g_rw_lock_init)]

/-- `janus_rwlock_init(a)` ≡
`{ if(!lock_debug) { janus_rwlock_init_nodebug(a); } else { janus_rwlock_init_debug(a); } }` -/
def janus_rwlock_init (lock_debug : Int) (ctx : Ctx) (a : Nat) : List Event :=
  if lock_debug = 0 then janus_rwlock_init_nodebug a else janus_rwlock_init_debug ctx a

/-- `janus_rwlock_destroy_nodebug(a)` ≡ `g_rw_lock_clear(a)` -/
def janus_rwlock_destroy_nodebug (_a : Nat) : List Event :=
  [Event.call (Call.prim Prim.g_rw_lock_clear)]

/-- `janus_rwlock_destroy_debug(a)`: prints a trace line whose tag literal in
the source is `rw_dectroy` (sic), then `janus_rwlock_destroy_nodebug(a)`. -/
def janus_rwlock_destroy_debug (ctx : Ctx) (a : Nat) : List Event :=
  Event.trace ⟨ctx.file, ctx.func, ctx.line, "rw_dectroy", a⟩
    :: janus_rwlock_destroy_nodebug a

/-- `janus_rwlock_destroy(a)` ≡
`{ if(!lock_debug) { janus_rwlock_destroy_nodebug(a); } else { janus_rwlock_destroy_debug(a); } }` -/
def janus_rwlock_destroy (lock_debug : Int) (ctx : Ctx) (a : Nat) : List Event :=
  if lock_debug = 0 then janus_rwlock_destroy_nodebug a
  else janus_rwlock_destroy_debug ctx a

/-- `janus_rwlock_reader_lock_nodebug(a)` ≡ `g_rw_lock_reader_lock(a)` -/
def janus_rwlock_reader_lock_nodebug (_a : Nat) : List Event :=
  [Event.call (Call.prim Prim.g_rw_lock_reader_lock)]

/-- `janus_rwlock_reader_lock_debug(a)`: prints the `reader_lock` trace line,
then `janus_rwlock_reader_lock_nodebug(a)`. -/
def janus_rwlock_reader_lock_debug (ctx : Ctx) (a : Nat) : List Event :=
  Event.trace ⟨ctx.file, ctx.func, ctx.line, "reader_lock", a⟩
    :: janus_rwlock_reader_lock_nodebug a

/-- `janus_rwlock_reader_lock(a)` ≡
`{ if(!lock_debug) { janus_rwlock_reader_lock_nodebug(a); } else { janus_rwlock_reader_lock_debug(a); } }` -/
def janus_rwlock_reader_lock (lock_debug : Int) (ctx : Ctx) (a : Nat) : List Event :=
  if lock_debug = 0 then janus_rwlock_reader_lock_nodebug a
  else janus_rwlock_reader_lock_debug ctx a

/-- `janus_rwlock_reader_trylock_nodebug(a)` ≡ `{ ret = g_rw_lock_reader_trylock(a); }` -/
def janus_rwlock_reader_trylock_nodebug (_a : Nat) : List Event :=
  [Event.call (Call.prim Prim.g_rw_lock_reader_trylock)]

/-- `janus_rwlock_reader_trylock_debug(a)`: prints the `reader_trylock` trace
line, then `ret = janus_rwlock_reader_trylock(a);`.  When this expansion occurs
inside `janus_rwlock_reader_trylock` itself, that token is painted blue and is
not re-expanded, leaving a call to the undefined symbol
`janus_rwlock_reader_trylock`. -/
def janus_rwlock_reader_trylock_debug (ctx : Ctx) (a : Nat) : List Event :=
  [Event.trace ⟨ctx.file, ctx.func, ctx.line, "reader_trylock", a⟩,
   Event.call (Call.undef ("janus_rwlock_reader_trylock"))]

/-- `janus_rwlock_reader_trylock(a)` ≡
`({ if(!lock_debug) { janus_rwlock_reader_trylock_nodebug(a); } else { janus_rwlock_reader_trylock_debug(a); } ret; })`
(note: unlike the other trylock wrappers, no `ret` variable is declared in the
statement expression). -/
def janus_rwlock_reader_trylock (lock_debug : Int) (ctx : Ctx) (a : Nat) : List Event :=
  if lock_debug = 0 then janus_rwlock_reader_trylock_nodebug a
  else janus_rwlock_reader_trylock_debug ctx a

/-- `janus_rwlock_reader_unlock_nodebug(a)` ≡ `g_rw_lock_reader_unlock(a)` -/
def janus_rwlock_reader_unlock_nodebug (_a : Nat) : List Event :=
  [Event.call (Call.prim Prim.g_rw_lock_reader_unlock)]

/-- `janus_rwlock_reader_unlock_debug(a)`: prints the `reader_unlock` trace
line, then `janus_rwlock_reader_unlock_nodebug(a)`. -/
def janus_rwlock_reader_unlock_debug (ctx : Ctx) (a : Nat) : List Event :=
  Event.trace ⟨ctx.file, ctx.func, ctx.line, "reader_unlock", a⟩
    :: janus_rwlock_reader_unlock_nodebug a

/-- `janus_rwlock_reader_unlock(a)` ≡
`{ if(!lock_debug) { janus_rwlock_reader_unlock_nodebug(a); } else { janus_rwlock_reader_unlock_debug(a); } }` -/
def janus_rwlock_reader_unlock (lock_debug : Int) (ctx : Ctx) (a : Nat) : List Event :=
  if lock_debug = 0 then janus_rwlock_reader_unlock_nodebug a
  else janus_rwlock_reader_unlock_debug ctx a

/-- `janus_rwlock_writer_lock_nodebug(a)` ≡ `g_rw_lock_writer_lock(a)` -/
def janus_rwlock_writer_lock_nodebug (_a : Nat) : List Event :=
  [Event.call (Call.prim Prim.g_rw_lock_writer_lock)]

/-- `janus_rwlock_writer_lock_debug(a)`: prints a trace line whose tag literal
in the source is `writer_unlock` (sic), then
`janus_rwlock_writer_lock_nodebug(a)`. -/
def janus_rwlock_writer_lock_debug (ctx : Ctx) (a : Nat) : List Event :=
  Event.trace ⟨ctx.file, ctx.func, ctx.line, "writer_unlock", a⟩
    :: janus_rwlock_writer_lock_nodebug a

/-- `janus_rwlock_writer_lock(a)` ≡
`{ if(!lock_debug) { janus_rwlock_writer_lock_nodebug(a); } else { janus_rwlock_writer_lock_debug(a); } }` -/
def janus_rwlock_writer_lock (lock_debug : Int) (ctx : Ctx) (a : Nat) : List Event :=
  if lock_debug = 0 then janus_rwlock_writer_lock_nodebug a
  else janus_rwlock_writer_lock_debug ctx a

/-- `janus_rwlock_writer_trylock_nodebug(a)` ≡ `{ ret = g_rw_lock_writer_trylock(a); }` -/
def janus_rwlock_writer_trylock_nodebug (_a : Nat) : List Event :=
  [Event.call (Call.prim Prim.g_rw_lock_writer_trylock)]

/-- `janus_rwlock_writer_trylock_debug(a)`: prints the `writer_trylock` trace
line, then `ret = janus_rwlock_writer_trylock(a);`.  When this expansion occurs
inside `janus_rwlock_writer_trylock` itself, that token is painted blue and is
not re-expanded, leaving a call to the undefined symbol
`janus_rwlock_writer_trylock`. -/
def janus_rwlock_writer_trylock_debug (ctx : Ctx) (a : Nat) : List Event :=
  [Event.trace ⟨ctx.file, ctx.func, ctx.line, "writer_trylock", a⟩,
   Event.call (Call.undef ("janus_rwlock_writer_trylock"))]

/-- `janus_rwlock_writer_trylock(a)` ≡
`({ gboolean ret; if(!lock_debug) { janus_rwlock_reader_trylock_nodebug(a); } else { janus_rwlock_writer_trylock_debug(a); } ret; })`
(note: the source's non-debug branch really is
`janus_rwlock_reader_trylock_nodebug`, the READER trylock). -/
def janus_rwlock_writer_trylock (lock_debug : Int) (ctx : Ctx) (a : Nat) : List Event :=
  if lock_debug = 0 then janus_rwlock_reader_trylock_nodebug a
  else janus_rwlock_writer_trylock_debug ctx a

/-- `janus_rwlock_writer_unlock_nodebug(a)` ≡ `g_rw_lock_writer_unlock(a)` -/
def janus_rwlock_writer_unlock_nodebug (_a : Nat) : List Event :=
  [Event.call (Call.prim Prim.g_rw_lock_writer_unlock)]

/-- `janus_rwlock_writer_unlock_debug(a)`: prints the `writer_unlock` trace
line, then `janus_rwlock_writer_unlock_nodebug(a)`. -/
def janus_rwlock_writer_unlock_debug (ctx : Ctx) (a : Nat) : List Event :=
  Event.trace ⟨ctx.file, ctx.func, ctx.line, "writer_unlock", a⟩
    :: janus_rwlock_writer_unlock_nodebug a

/-- `janus_rwlock_writer_unlock(a)` ≡
`{ if(!lock_debug) { janus_rwlock_writer_unlock_nodebug(a); } else { janus_rwlock_writer_unlock_debug(a); } }` -/
def janus_rwlock_writer_unlock (lock_debug : Int) (ctx : Ctx) (a : Nat) : List Event :=
  if lock_debug = 0 then janus_rwlock_writer_unlock_nodebug a
  else janus_rwlock_writer_unlock_debug ctx a

end Glib

/-! ## The facade operation set and dispatch -/

/-- The build-time backend selection: `USE_PTHREAD_MUTEX` defined, or the GLib
default (`#else`). -/
inductive Backend
  | pthread
  | glib
deriving DecidableEq, Repr

/-- The public facade operations named in `mutex.h`. -/
inductive Op
  | mutex_init
  | mutex_destroy
  | mutex_lock
  | mutex_trylock
  | mutex_unlock
  | cond_init
  | cond_destroy
  | cond_wait
  | cond_wait_until
  | cond_signal
  | cond_broadcast
  | rw_init
  | rw_destroy
  | rw_reader_lock
  | rw_reader_trylock
  | rw_reader_unlock
  | rw_writer_lock
  | rw_writer_trylock
  | rw_writer_unlock
deriving DecidableEq, Repr

/-- The condition-variable operations. -/
def isCondOp : Op → Bool
  | Op.cond_init | Op.cond_destroy | Op.cond_wait | Op.cond_wait_until
  | Op.cond_signal | Op.cond_broadcast => true
  | _ => false

/-- The `janus_rwlock` operations. -/
def isRwOp : Op → Bool
  | Op.rw_init | Op.rw_destroy | Op.rw_reader_lock | Op.rw_reader_trylock
  | Op.rw_reader_unlock | Op.rw_writer_lock | Op.rw_writer_trylock
  | Op.rw_writer_unlock => true
  | _ => false

/-- Whether the facade macro for an operation is defined at all in a given
branch of the `#ifdef`: the `USE_PTHREAD_MUTEX` branch defines no
`janus_rwlock` macro. -/
def available : Backend → Op → Bool
  | Backend.pthread, o => !(isRwOp o)
  | Backend.glib, _ => true

/-- The events performed by one invocation of a facade operation, given the
branch, the value of `lock_debug` at the invocation, the expansion context and
the handle address; `none` when the branch does not define the macro. -/
def expand : Backend → Int → Op → Ctx → Nat → Option (List Event)
  | Backend.pthread, _, Op.mutex_init, _, a => some (Pthread.janus_mutex_init a)
  | Backend.pthread, _, Op.mutex_destroy, _, a => some (Pthread.janus_mutex_destroy a)
  | Backend.pthread, d, Op.mutex_lock, ctx, a => some (Pthread.janus_mutex_lock d ctx a)
  | Backend.pthread, d, Op.mutex_trylock, ctx, a => some (Pthread.janus_mutex_trylock d ctx a)
  | Backend.pthread, d, Op.mutex_unlock, ctx, a => some (Pthread.janus_mutex_unlock d ctx a)
  | Backend.pthread, _, Op.cond_init, _, a => some (Pthread.janus_condition_init a)
  | Backend.pthread, _, Op.cond_destroy, _, a => some (Pthread.janus_condition_destroy a)
  | Backend.pthread, _, Op.cond_wait, _, a => some (Pthread.janus_condition_wait a)
  | Backend.pthread, _, Op.cond_wait_until, _, a => some (Pthread.janus_condition_wait_until a)
  | Backend.pthread, _, Op.cond_signal, _, a => some (Pthread.janus_condition_signal a)
  | Backend.pthread, _, Op.cond_broadcast, _, a => some (Pthread.janus_condition_broadcast a)
  | Backend.pthread, _, Op.rw_init, _, _ => none
  | Backend.pthread, _, Op.rw_destroy, _, _ => none
  | Backend.pthread, _, Op.rw_reader_lock, _, _ => none
  | Backend.pthread, _, Op.rw_reader_trylock, _, _ => none
  | Backend.pthread, _, Op.rw_reader_unlock, _, _ => none
  | Backend.pthread, _, Op.rw_writer_lock, _, _ => none
  | Backend.pthread, _, Op.rw_writer_trylock, _, _ => none
  | Backend.pthread, _, Op.rw_writer_unlock, _, _ => none
  | Backend.glib, _, Op.mutex_init, _, a => some (Glib.janus_mutex_init a)
  | Backend.glib, _, Op.mutex_destroy, _, a => some (Glib.janus_mutex_destroy a)
  | Backend.glib, d, Op.mutex_lock, ctx, a => some (Glib.janus_mutex_lock d ctx a)
  | Backend.glib, d, Op.mutex_trylock, ctx, a => some (Glib.janus_mutex_trylock d ctx a)
  | Backend.glib, d, Op.mutex_unlock, ctx, a => some (Glib.janus_mutex_unlock d ctx a)
  | Backend.glib, _, Op.cond_init, _, a => some (Glib.janus_condition_init a)
  | Backend.glib, _, Op.cond_destroy, _, a => some (Glib.janus_condition_destroy a)
  | Backend.glib, _, Op.cond_wait, _, a => some (Glib.janus_condition_wait a)
  | Backend.glib, _, Op.cond_wait_until, _, a => some (Glib.janus_condition_wait_until a)
  | Backend.glib, _, Op.cond_signal, _, a => some (Glib.janus_condition_signal a)
  | Backend.glib, _, Op.cond_broadcast, _, a => some (Glib.janus_condition_broadcast a)
  | Backend.glib, d, Op.rw_init, ctx, a => some (Glib.janus_rwlock_init d ctx a)
  | Backend.glib, d, Op.rw_destroy, ctx, a => some (Glib.janus_rwlock_destroy d ctx a)
  | Backend.glib, d, Op.rw_reader_lock, ctx, a => some (Glib.janus_rwlock_reader_lock d ctx a)
  | Backend.glib, d, Op.rw_reader_trylock, ctx, a => some (Glib.janus_rwlock_reader_trylock d ctx a)
  | Backend.glib, d, Op.rw_reader_unlock, ctx, a => some (Glib.janus_rwlock_reader_unlock d ctx a)
  | Backend.glib, d, Op.rw_writer_lock, ctx, a => some (Glib.janus_rwlock_writer_lock d ctx a)
  | Backend.glib, d, Op.rw_writer_trylock, ctx, a => some (Glib.janus_rwlock_writer_trylock d ctx a)
  | Backend.glib, d, Op.rw_writer_unlock, ctx, a => some (Glib.janus_rwlock_writer_unlock d ctx a)

/-- `expand`, with an unavailable operation contributing no events. -/
def expandE (b : Backend) (d : Int) (o : Op) (ctx : Ctx) (a : Nat) : List Event :=
  (expand b d o ctx a).getD []

/-- The events of a sequence of facade invocations run under one fixed value
of `lock_debug`. -/
def runSeq (b : Backend) (d : Int) : List (Op × Ctx × Nat) → List Event
  | [] => []
  | (o, ctx, a) :: rest => expandE b d o ctx a ++ runSeq b d rest

/-- A step of a program interacting with the facade: either a write to the
global `lock_debug` flag, or a facade invocation. -/
inductive SysEvent
  | setDebug (v : Int)
  | invoke (o : Op) (ctx : Ctx) (a : Nat)

/-- Running a list of system events from a given `lock_debug` value, collecting
the events of each facade invocation separately (in order).  Each invocation
reads the flag exactly once, at its start. -/
def runFacade (b : Backend) : Int → List SysEvent → List (List Event)
  | _, [] => []
  | _, SysEvent.setDebug v :: rest => runFacade b v rest
  | d, SysEvent.invoke o ctx a :: rest => expandE b d o ctx a :: runFacade b d rest

/-! ## The trylock statement expressions

Each trylock wrapper is a GCC statement expression whose value is the variable
`ret`.  `TrylockExpr` records the structure of that expression: whether it
declares `ret` itself, and the call whose result is assigned to `ret` in each
branch. -/

/-- Shape of a trylock wrapper's statement expression. -/
structure TrylockExpr where
  declaresRet : Bool
  nodebugRetSource : Call
  debugRetSource : Call
deriving DecidableEq, Repr

/-- `janus_mutex_trylock` (pthread branch):
`({ int ret; if(!lock_debug) { ret = !pthread_mutex_trylock(a); } else { ...print...; ret = !pthread_mutex_trylock(a); } ret; })` -/
def janus_mutex_trylock_expr_pthread : TrylockExpr :=
  { declaresRet := true
    nodebugRetSource := Call.prim Prim.pthread_mutex_trylock
    debugRetSource := Call.prim Prim.pthread_mutex_trylock }

/-- `janus_mutex_trylock` (GLib branch):
`({ gboolean ret; if(!lock_debug) { ret = g_mutex_trylock(a); } else { ...print...; ret = g_mutex_trylock(a); } ret; })` -/
def janus_mutex_trylock_expr_glib : TrylockExpr :=
  { declaresRet := true
    nodebugRetSource := Call.prim Prim.g_mutex_trylock
    debugRetSource := Call.prim Prim.g_mutex_trylock }

/-- `janus_rwlock_reader_trylock`:
`({ if(!lock_debug) { ret = g_rw_lock_reader_trylock(a); } else { ...print...; ret = janus_rwlock_reader_trylock(a); } ret; })` —
no declaration of `ret`, and the debug branch assigns from the blue-painted
(undefined) symbol `janus_rwlock_reader_trylock`. -/
def janus_rwlock_reader_trylock_expr : TrylockExpr :=
  { declaresRet := false
    nodebugRetSource := Call.prim Prim.g_rw_lock_reader_trylock
    debugRetSource := Call.undef ("janus_rwlock_reader_trylock") }

/-- `janus_rwlock_writer_trylock`:
`({ gboolean ret; if(!lock_debug) { ret = g_rw_lock_reader_trylock(a); } else { ...print...; ret = janus_rwlock_writer_trylock(a); } ret; })` —
the non-debug branch assigns from the READER trylock, and the debug branch from
the blue-painted (undefined) symbol `janus_rwlock_writer_trylock`. -/
def janus_rwlock_writer_trylock_expr : TrylockExpr :=
  { declaresRet := true
    nodebugRetSource := Call.prim Prim.g_rw_lock_reader_trylock
    debugRetSource := Call.undef ("janus_rwlock_writer_trylock") }

/-! ## GLib rwlock primitive semantics

`GRWLock` is an external GLib primitive; its documented behavior is modelled by
an abstract lock state: a writer-held bit and a count of readers holding the
lock.  `g_rw_lock_reader_trylock` succeeds unless a writer holds the lock;
`g_rw_lock_writer_trylock` succeeds only when no reader and no writer holds
it. -/

/-- Abstract state of a `GRWLock`: whether a writer holds it and how many
readers hold it. -/
structure RWState where
  writer : Bool
  readers : Nat
deriving DecidableEq, Repr

/-- `g_rw_lock_reader_lock` (after any blocking, i.e. once no writer holds the
lock) adds one reader. -/
def g_rw_lock_reader_lock_step (s : RWState) : RWState :=
  { s with readers := s.readers + 1 }

/-- `g_rw_lock_reader_unlock` removes one reader. -/
def g_rw_lock_reader_unlock_step (s : RWState) : RWState :=
  { s with readers := s.readers - 1 }

/-- `g_rw_lock_reader_trylock`: succeeds (and adds a reader) exactly when no
writer holds the lock. -/
def g_rw_lock_reader_trylock_step (s : RWState) : Bool × RWState :=
  if s.writer then (false, s) else (true, { s with readers := s.readers + 1 })

/-- `g_rw_lock_writer_trylock`: succeeds (and takes the writer hold) exactly
when no writer and no reader holds the lock. -/
def g_rw_lock_writer_trylock_step (s : RWState) : Bool × RWState :=
  if s.writer || decide (0 < s.readers) then (false, s)
  else (true, { s with writer := true })

/-- Execution of `janus_rwlock_writer_trylock(a)` over the abstract rwlock
state: its non-debug branch performs `janus_rwlock_reader_trylock_nodebug(a)`,
i.e. `ret = g_rw_lock_reader_trylock(a)` (as written in the source); its debug
branch assigns `ret` from the undefined symbol `janus_rwlock_writer_trylock`,
so it has no defined result. -/
def janus_rwlock_writer_trylock_exec (lock_debug : Int) (s : RWState) :
    Option (Bool × RWState) :=
  if lock_debug = 0 then some (g_rw_lock_reader_trylock_step s) else none

/-! ## `janus_condition_wait_until` deadline conversion -/

/-- GLib's `G_USEC_PER_SEC` constant. -/
def G_USEC_PER_SEC : Int := 1000000

/-- A `struct timespec`. -/
structure timespec where
  tv_sec : Int
  tv_nsec : Int
deriving DecidableEq, Repr

/-- The `jct` timespec built by the pthread-branch
`janus_condition_wait_until(a, b, c)` from the microsecond deadline `c`:
`{ .tv_sec = c / G_USEC_PER_SEC, .tv_nsec = (c % G_USEC_PER_SEC)*1000 }`,
with C's truncating division and remainder (`Int.tdiv` / `Int.tmod`). -/
def janus_condition_wait_until_jct (c : Int) : timespec :=
  { tv_sec := Int.tdiv c G_USEC_PER_SEC
    tv_nsec := (Int.tmod c G_USEC_PER_SEC) * 1000 }

/-- The deadline argument the GLib-branch `janus_condition_wait_until(a, b, c)`
passes to `g_cond_wait_until(a, b, c)`: `c` itself. -/
def janus_condition_wait_until_glib_deadline (c : Int) : Int := c

/-! ## `janus_mutex_trylock` result value (pthread branch) -/

/-- C logical negation `!x`: `1` when `x` is `0`, else `0`. -/
def c_not (x : Int) : Int := if x = 0 then 1 else 0

/-- The value assigned to `ret` by the pthread-branch `janus_mutex_trylock`
when `pthread_mutex_trylock(a)` returns the code `rc`:
`ret = !pthread_mutex_trylock(a)`. -/
def janus_mutex_trylock_ret (rc : Int) : Int := c_not rc

/-! ## Correspondence between the two primitive families -/

/-- The GLib primitive corresponding to each pthread primitive (identity on
the GLib primitives themselves). -/
def primCounterpart : Prim → Prim
  | Prim.pthread_mutex_init => Prim.g_mutex_init
  | Prim.pthread_mutex_destroy => Prim.g_mutex_clear
  | Prim.pthread_mutex_lock => Prim.g_mutex_lock
  | Prim.pthread_mutex_trylock => Prim.g_mutex_trylock
  | Prim.pthread_mutex_unlock => Prim.g_mutex_unlock
  | Prim.pthread_cond_init => Prim.g_cond_init
  | Prim.pthread_cond_destroy => Prim.g_cond_clear
  | Prim.pthread_cond_wait => Prim.g_cond_wait
  | Prim.pthread_cond_timedwait => Prim.g_cond_wait_until
  | Prim.pthread_cond_signal => Prim.g_cond_signal
  | Prim.pthread_cond_broadcast => Prim.g_cond_broadcast
  | p => p

/-- `primCounterpart` lifted to call sites. -/
def callCounterpart : Call → Call
  | Call.prim p => Call.prim (primCounterpart p)
  | Call.undef n => Call.undef n

/-! ## Helper lemmas -/

theorem traces_append (xs ys : List Event) :
    traces (xs ++ ys) = traces xs ++ traces ys := by
  induction xs with
  | nil => rfl
  | cons e es ih => cases e <;> simp [traces, ih]

theorem expandE_debug_off_no_trace (b : Backend) (o : Op) (ctx : Ctx) (a : Nat) :
    traces (expandE b 0 o ctx a) = [] := by
  cases b <;> cases o <;> rfl

/-! ## Claim theorems -/

/-- Claim C1 (code bug): the facade does not always delegate to the
corresponding backend primitive.  With `lock_debug == 0`,
`janus_rwlock_writer_trylock` invokes `g_rw_lock_reader_trylock` — never
`g_rw_lock_writer_trylock` — and with `lock_debug != 0` its debug branch calls
the undefined symbol `janus_rwlock_writer_trylock` (the blue-painted macro
name) instead of any backend primitive. -/
theorem C1_writer_trylock_delegation_bug :
    callsOf (Glib.janus_rwlock_writer_trylock 0 ⟨"mutex.h", "caller", 160⟩ 7)
      = [Call.prim Prim.g_rw_lock_reader_trylock] ∧
    Call.prim Prim.g_rw_lock_writer_trylock ∉
      callsOf (Glib.janus_rwlock_writer_trylock 0 ⟨"mutex.h", "caller", 160⟩ 7) ∧
    callsOf (Glib.janus_rwlock_writer_trylock 1 ⟨"mutex.h", "caller", 160⟩ 7)
      = [Call.undef ("janus_rwlock_writer_trylock")] := by
  decide

/-- Claim C2 (code bug): with the debug flag set each mutex/rwlock wrapper does
emit one trace line before delegating, but two tags are not the ones the claim
requires: `janus_rwlock_destroy` emits the misspelled tag `rw_dectroy` (not
`rw_destroy`) and `janus_rwlock_writer_lock` emits the copy-pasted tag
`writer_unlock` (not `writer_lock`). -/
theorem C2_trace_tag_bugs :
    traces (Glib.janus_rwlock_destroy 1 ⟨"mutex.h", "caller", 129⟩ 7)
      = [⟨"mutex.h", "caller", 129, "rw_dectroy", 7⟩] ∧
    ¬ ("rw_dectroy" = "rw_destroy") ∧
    traces (Glib.janus_rwlock_writer_lock 1 ⟨"mutex.h", "caller", 151⟩ 7)
      = [⟨"mutex.h", "caller", 151, "writer_unlock", 7⟩] ∧
    ¬ ("writer_unlock" = "writer_lock") := by
  decide

/-- Claim C3 (counterexample): the public operation sets of the two branches
differ — the whole `janus_rwlock` family, here `janus_rwlock_writer_trylock`,
is defined in the GLib branch but not in the `USE_PTHREAD_MUTEX` branch, so
the claim as stated is false. -/
theorem C3_rwlock_missing_in_pthread_branch :
    available Backend.glib Op.rw_writer_trylock = true ∧
    available Backend.pthread Op.rw_writer_trylock = false ∧
    expand Backend.pthread 0 Op.rw_writer_trylock ⟨"mutex.h", "caller", 160⟩ 7 = none ∧
    (expand Backend.glib 0 Op.rw_writer_trylock ⟨"mutex.h", "caller", 160⟩ 7).isSome
      = true := by
  decide

/-- Claim C3 (amended): the mutex and condition operations are available in
both branches with the same trace behavior and with delegation to the
corresponding primitive of each family, while the `janus_rwlock` family is
available only in the GLib branch. -/
theorem C3_amended_mutex_cond_equiv :
    (∀ (o : Op), isRwOp o = false → ∀ (d : Int) (ctx : Ctx) (a : Nat),
        (expand Backend.pthread d o ctx a).isSome = true ∧
        (expand Backend.glib d o ctx a).isSome = true ∧
        traces (expandE Backend.pthread d o ctx a)
          = traces (expandE Backend.glib d o ctx a) ∧
        callsOf (expandE Backend.glib d o ctx a)
          = List.map callCounterpart (callsOf (expandE Backend.pthread d o ctx a))) ∧
    (∀ (o : Op), isRwOp o = true → ∀ (d : Int) (ctx : Ctx) (a : Nat),
        expand Backend.pthread d o ctx a = none ∧
        (expand Backend.glib d o ctx a).isSome = true) := by
  constructor
  · intro o h d ctx a
    by_cases hd : d = 0 <;> cases o <;>
      simp_all [expand, expandE, traces, callsOf, callCounterpart, primCounterpart, isRwOp,
        Pthread.janus_mutex_init, Pthread.janus_mutex_destroy,
        Pthread.janus_mutex_lock, Pthread.janus_mutex_lock_nodebug, Pthread.janus_mutex_lock_debug,
        Pthread.janus_mutex_trylock, Pthread.janus_mutex_trylock_nodebug,
        Pthread.janus_mutex_trylock_debug,
        Pthread.janus_mutex_unlock, Pthread.janus_mutex_unlock_nodebug,
        Pthread.janus_mutex_unlock_debug,
        Pthread.janus_condition_init, Pthread.janus_condition_destroy,
        Pthread.janus_condition_wait, Pthread.janus_condition_wait_until,
        Pthread.janus_condition_signal, Pthread.janus_condition_broadcast,
        Glib.janus_mutex_init, Glib.janus_mutex_destroy,
        Glib.janus_mutex_lock, Glib.janus_mutex_lock_nodebug, Glib.janus_mutex_lock_debug,
        Glib.janus_mutex_trylock, Glib.janus_mutex_trylock_nodebug,
        Glib.janus_mutex_trylock_debug,
        Glib.janus_mutex_unlock, Glib.janus_mutex_unlock_nodebug,
        Glib.janus_mutex_unlock_debug,
        Glib.janus_condition_init, Glib.janus_condition_destroy,
        Glib.janus_condition_wait, Glib.janus_condition_wait_until,
        Glib.janus_condition_signal, Glib.janus_condition_broadcast]
  · intro o h d ctx a
    cases o <;> simp_all [expand, isRwOp]

/-- Witness for the amended claim C3: concrete application at `mutex_lock`
(available in both branches) and `rw_init` (absent from the pthread branch). -/
theorem C3_amended_mutex_cond_equiv_witness :
    (expand Backend.pthread 1 Op.mutex_lock ⟨"mutex.h", "caller", 35⟩ 7).isSome = true ∧
    expand Backend.pthread 1 Op.rw_init ⟨"mutex.h", "caller", 124⟩ 7 = none :=
  ⟨(C3_amended_mutex_cond_equiv.1 Op.mutex_lock rfl 1 ⟨"mutex.h", "caller", 35⟩ 7).1,
   (C3_amended_mutex_cond_equiv.2 Op.rw_init rfl 1 ⟨"mutex.h", "caller", 124⟩ 7).1⟩

/-- Claim C4 (code bug): unlike `janus_mutex_trylock` (both branches) and
`janus_rwlock_writer_trylock`, the statement expression of
`janus_rwlock_reader_trylock` never declares its result variable `ret`; and
with the debug flag set its branch assigns `ret` from the undefined symbol
`janus_rwlock_reader_trylock` (the blue-painted macro name), not from the
backend's reader trylock. -/
theorem C4_reader_trylock_ret_bug :
    janus_rwlock_reader_trylock_expr.declaresRet = false ∧
    janus_rwlock_reader_trylock_expr.debugRetSource
      = Call.undef ("janus_rwlock_reader_trylock") ∧
    callsOf (Glib.janus_rwlock_reader_trylock 1 ⟨"mutex.h", "caller", 142⟩ 7)
      = [Call.undef ("janus_rwlock_reader_trylock")] ∧
    janus_mutex_trylock_expr_pthread.declaresRet = true ∧
    janus_mutex_trylock_expr_glib.declaresRet = true ∧
    janus_rwlock_writer_trylock_expr.declaresRet = true := by
  decide

/-- Claim C5 (confirmed): for every non-negative microsecond deadline `c`, the
pthread branch of `janus_condition_wait_until` builds a timespec with
`tv_sec = c / 1000000` and `tv_nsec = (c mod 1000000) * 1000`, a lossless and
in-range conversion (`tv_sec * 1000000 + tv_nsec / 1000 = c`,
`0 ≤ tv_nsec < 10^9`), and the GLib branch passes `c` through unchanged. -/
theorem C5_wait_until_conversion (c : Int) (h : 0 ≤ c) :
    (janus_condition_wait_until_jct c).tv_sec = c / 1000000 ∧
    (janus_condition_wait_until_jct c).tv_nsec = (c % 1000000) * 1000 ∧
    (janus_condition_wait_until_jct c).tv_sec * 1000000
        + (janus_condition_wait_until_jct c).tv_nsec / 1000 = c ∧
    0 ≤ (janus_condition_wait_until_jct c).tv_nsec ∧
    (janus_condition_wait_until_jct c).tv_nsec < 1000000000 ∧
    janus_condition_wait_until_glib_deadline c = c := by
  have hd : Int.tdiv c G_USEC_PER_SEC = c / 1000000 :=
    Int.tdiv_eq_ediv h (by decide)
  have hm : Int.tmod c G_USEC_PER_SEC = c % 1000000 :=
    Int.tmod_eq_emod h (by decide)
  refine ⟨?_, ?_, ?_, ?_, ?_, ?_⟩ <;>
    simp only [janus_condition_wait_until_jct, janus_condition_wait_until_glib_deadline,
      hd, hm] <;>
    omega

/-- Witness for claim C5: the deadline `1_500_000` µs maps to `1` second and
`500_000_000` ns; the losslessness equation holds there. -/
theorem C5_wait_until_conversion_witness :
    (janus_condition_wait_until_jct 1500000).tv_sec = 1500000 / 1000000 ∧
    (janus_condition_wait_until_jct 1500000).tv_nsec = 1500000 % 1000000 * 1000 ∧
    (janus_condition_wait_until_jct 1500000).tv_sec * 1000000
        + (janus_condition_wait_until_jct 1500000).tv_nsec / 1000 = 1500000 ∧
    (janus_condition_wait_until_jct 1500000).tv_sec = 1 ∧
    (janus_condition_wait_until_jct 1500000).tv_nsec = 500000000 := by
  have h := C5_wait_until_conversion 1500000 (by decide)
  exact ⟨h.1, h.2.1, h.2.2.1, by decide, by decide⟩

/-- Claim C6 (confirmed): when `lock_debug` is `0`, no facade operation emits
any trace line — for every backend branch, every single operation, and every
sequence of invocations. -/
theorem C6_no_trace_when_debug_off :
    (∀ (b : Backend) (o : Op) (ctx : Ctx) (a : Nat),
        traces (expandE b 0 o ctx a) = []) ∧
    (∀ (b : Backend) (calls : List (Op × Ctx × Nat)),
        traces (runSeq b 0 calls) = []) := by
  refine ⟨expandE_debug_off_no_trace, ?_⟩
  intro b calls
  induction calls with
  | nil => rfl
  | cons hd tl ih =>
    obtain ⟨o, ctx, a⟩ := hd
    simp [runSeq, traces_append, expandE_debug_off_no_trace, ih]

/-- Claim C7 (confirmed): no condition-variable operation emits a trace line,
in either backend branch and whatever the value of the debug flag. -/
theorem C7_condition_ops_never_trace (o : Op) (h : isCondOp o = true)
    (b : Backend) (d : Int) (ctx : Ctx) (a : Nat) :
    traces (expandE b d o ctx a) = [] := by
  cases o <;> simp only [isCondOp] at h <;> first
    | exact absurd h (by decide)
    | (cases b <;> rfl)

/-- Witness for claim C7: `janus_condition_wait` in the GLib branch with the
debug flag set emits no trace line. -/
theorem C7_condition_ops_never_trace_witness :
    isCondOp Op.cond_wait = true ∧
    traces (expandE Backend.glib 1 Op.cond_wait ⟨"mutex.h", "caller", 105⟩ 7) = [] :=
  ⟨rfl, C7_condition_ops_never_trace Op.cond_wait rfl Backend.glib 1
    ⟨"mutex.h", "caller", 105⟩ 7⟩

/-- Claim C8 (confirmed): each facade invocation reads `lock_debug` once at its
start, so a write to the flag decomposes a run — the invocations before the
write behave exactly as if the following events did not exist, and the
invocations after it run under the new value; toggling is never retroactive. -/
theorem C8_toggle_never_retroactive (b : Backend) (d : Int) (es1 : List SysEvent)
    (v : Int) (es2 : List SysEvent) :
    runFacade b d (es1 ++ SysEvent.setDebug v :: es2)
      = runFacade b d es1 ++ runFacade b v es2 := by
  induction es1 generalizing d with
  | nil => rfl
  | cons e es ih => cases e <;> simp [runFacade, ih]

/-- Claim C9 (code bug): starting from a free rwlock, after two readers take
the lock (`readers = 2`, no writer), `janus_rwlock_writer_trylock` with the
debug flag off performs the backend READER trylock, which succeeds — it
returns acquired (`true`) and adds a third reader hold — whereas a genuine
`g_rw_lock_writer_trylock` at that state fails as the claim requires. -/
theorem C9_writer_trylock_under_two_readers_bug :
    g_rw_lock_reader_lock_step (g_rw_lock_reader_lock_step ⟨false, 0⟩) = ⟨false, 2⟩ ∧
    janus_rwlock_writer_trylock_exec 0 ⟨false, 2⟩ = some (true, ⟨false, 3⟩) ∧
    g_rw_lock_writer_trylock_step ⟨false, 2⟩ = (false, ⟨false, 2⟩) := by
  decide

/-- Claim C10 (confirmed): the pthread-branch `janus_mutex_trylock` assigns
`ret = !pthread_mutex_trylock(a)`, so it reports acquired (`ret = 1`) exactly
when the backend returns `0`, and every nonzero return code — `EBUSY`,
`EINVAL` or any other error — collapses to the single not-acquired value
`ret = 0`. -/
theorem C10_trylock_collapses_errors (rc : Int) :
    (janus_mutex_trylock_ret rc = 1 ↔ rc = 0) ∧
    (rc ≠ 0 → janus_mutex_trylock_ret rc = 0) := by
  unfold janus_mutex_trylock_ret c_not
  by_cases h : rc = 0 <;> simp [h]

/-- Witness for claim C10: at the concrete return codes `EBUSY = 16` and
`EINVAL = 22` the result is not-acquired, and at `0` it is acquired. -/
theorem C10_trylock_collapses_errors_witness :
    janus_mutex_trylock_ret 16 = 0 ∧ janus_mutex_trylock_ret 22 = 0 ∧
    janus_mutex_trylock_ret 0 = 1 :=
  ⟨(C10_trylock_collapses_errors 16).2 (by decide),
   (C10_trylock_collapses_errors 22).2 (by decide),
   (C10_trylock_collapses_errors 0).1.mpr rfl⟩

end JanusMutex
